import Mathlib

/-!
# Verification of the SimpliSmart deployment scheduler

Shallow embedding of `app/api/v1/endpoints/deployments.py` together with the
data model of `app/schemas/deployment.py` and `app/schemas/cluster.py`.

Modelling conventions:
* Python `float` resource quantities (`cpu`, `ram`) are embedded as exact
  rationals `ℚ`; `gpu` counts are `Int`, mirroring the schema types.  All
  claim-relevant arithmetic is addition/subtraction/comparison on small
  integral values, which is exact in both models.
* The SQLAlchemy session is embedded as an explicit per-cluster state: one
  `Cluster` row plus the list of `Deployment` rows of that cluster's
  organization, in insertion (primary-key) order.  Rows are keyed by `id`;
  in-place ORM mutation of a row becomes an update of the row with that id.
* `db.query(...).order_by(DeploymentModel.priority)` is embedded as a stable
  sort by `priority` over the stored row order (ties keep insertion order).
* Authentication and organization scoping are orthogonal to every claim and
  are modelled as a single organization owning the cluster and its rows.
* Fields of the rows that no claim mentions (`name`, `description`,
  `created_at`, `completed_at`) are omitted from the embedding.
* Timestamps (`datetime.utcnow()`) are passed in explicitly as `Nat`.
-/

/-- `DeploymentStatus` from `app/schemas/deployment.py`. -/
inductive DeploymentStatus where
  | pending
  | scheduled
  | running
  | preempted
  | failed
  | completed
  deriving DecidableEq, Repr

/- `DeploymentPriority` from `app/schemas/deployment.py` (an `int` enum). -/
namespace DeploymentPriority

def LOW : Nat := 0

def MEDIUM : Nat := 1

def HIGH : Nat := 2

def CRITICAL : Nat := 3

end DeploymentPriority

/-- The `Cluster` model row (`app/schemas/cluster.py` resource fields). -/
structure Cluster where
  id : Nat
  cpu_limit : ℚ
  ram_limit : ℚ
  gpu_limit : Int
  cpu_used : ℚ
  ram_used : ℚ
  gpu_used : Int
  deriving DecidableEq, Repr

/-- The `Deployment` model row.  `dependency_ids` embeds the dependency
association table: `deployment.dependencies` is recovered by resolving the
ids against the stored rows. -/
structure Deployment where
  id : Nat
  cluster_id : Nat
  cpu_required : ℚ
  memory_required : ℚ
  gpu_required : Int
  priority : Nat
  status : DeploymentStatus
  scheduled_at : Option Nat
  started_at : Option Nat
  dependency_ids : List Nat
  deriving DecidableEq, Repr

/-- The per-cluster database state: the cluster row and the deployment rows,
in insertion (primary-key) order. -/
structure State where
  cluster : Cluster
  deployments : List Deployment
  deriving DecidableEq, Repr

/-- Modelled from the spec: `app/models/deployment.py` is absent from the
source tree (only its callers and tests are present).  Per the spec, PENDING
is the initial state for a newly created deployment. -/
def initialStatus : DeploymentStatus := DeploymentStatus.pending

/-- The ORM relationship `deployment.dependencies`: the stored rows whose id
appears in the deployment's dependency id set. -/
def dependenciesOf (s : State) (d : Deployment) : List Deployment :=
  s.deployments.filter (fun e => d.dependency_ids.contains e.id)

/-- The comparison used by `order_by(DeploymentModel.priority)`. -/
def priorityLE (a b : Deployment) : Prop := a.priority ≤ b.priority

instance : DecidableRel priorityLE := fun a b => Nat.decLe a.priority b.priority

instance : IsTotal Deployment priorityLE := ⟨fun a b => Nat.le_total a.priority b.priority⟩

instance : IsTrans Deployment priorityLE := ⟨fun _ _ _ h1 h2 => Nat.le_trans h1 h2⟩

/-- Stable sort by `priority`, embedding `order_by(DeploymentModel.priority)`:
rows with equal priority keep their stored (insertion) order. -/
def sortByPriority (ds : List Deployment) : List Deployment :=
  ds.insertionSort priorityLE

/-- Total CPU requirement of a list of deployments. -/
def cpuOf (ds : List Deployment) : ℚ := (ds.map Deployment.cpu_required).sum

/-- Total memory requirement of a list of deployments. -/
def memOf (ds : List Deployment) : ℚ := (ds.map Deployment.memory_required).sum

/-- Total GPU requirement of a list of deployments. -/
def gpuOf (ds : List Deployment) : Int := (ds.map Deployment.gpu_required).sum

/-- The query filter of `preempt_lower_priority_deployments` (lines 33-37):
RUNNING deployments of the cluster with strictly lower priority than the
candidate. -/
def runningBelow (s : State) (priority : Nat) : List Deployment :=
  s.deployments.filter (fun d =>
    d.cluster_id == s.cluster.id && d.status == DeploymentStatus.running &&
      decide (d.priority < priority))

/-- The candidate list of `preempt_lower_priority_deployments` (lines 33-37):
the filtered rows, ordered by priority. -/
def eligibleVictims (s : State) (priority : Nat) : List Deployment :=
  sortByPriority (runningBelow s priority)

/-- The accumulation loop of `preempt_lower_priority_deployments`
(lines 39-51): walk the candidates, accumulating freed resources, and stop as
soon as the freed amounts cover the full request in all three dimensions.
Returns the accumulated `preempted_deployments` list. -/
def selectVictims (rc rm : ℚ) (rg : Int) : ℚ → ℚ → Int → List Deployment → List Deployment
  | _, _, _, [] => []
  | fc, fm, fg, d :: rest =>
    let fc' := fc + d.cpu_required
    let fm' := fm + d.memory_required
    let fg' := fg + d.gpu_required
    if fc' ≥ rc ∧ fm' ≥ rm ∧ fg' ≥ rg then [d]
    else d :: selectVictims rc rm rg fc' fm' fg' rest

/-- Lines 56-58: mark every selected victim row PREEMPTED (rows are
identified by primary key). -/
def markPreempted (victimIds : List Nat) (ds : List Deployment) : List Deployment :=
  ds.map (fun d =>
    if victimIds.contains d.id then { d with status := DeploymentStatus.preempted } else d)

/-- The `preempted_deployments` list accumulated by the loop. -/
def chosenVictims (s : State) (required_cpu required_memory : ℚ) (required_gpu : Int)
    (priority : Nat) : List Deployment :=
  selectVictims required_cpu required_memory required_gpu 0 0 0 (eligibleVictims s priority)

/-- `preempt_lower_priority_deployments` (lines 27-61).  The final freed
totals tested on lines 53-54 equal the sums over the accumulated victim list,
whether the loop broke early or exhausted the candidates.  Note that the
function only flips victim statuses: it never credits the victims'
reservations back to the cluster's used counters. -/
def preempt_lower_priority_deployments (s : State) (required_cpu required_memory : ℚ)
    (required_gpu : Int) (priority : Nat) : Bool × List Deployment :=
  let victims := chosenVictims s required_cpu required_memory required_gpu priority
  if cpuOf victims ≥ required_cpu ∧ memOf victims ≥ required_memory ∧
      gpuOf victims ≥ required_gpu then
    (true, markPreempted (victims.map Deployment.id) s.deployments)
  else (false, s.deployments)

/-- Update the status of the row with the given id. -/
def setStatus (dId : Nat) (st : DeploymentStatus) (ds : List Deployment) : List Deployment :=
  ds.map (fun e => if e.id == dId then { e with status := st } else e)

/-- Lines 94-106 of `schedule_deployment`: debit the cluster's used counters
by the candidate's request and mark the candidate SCHEDULED. -/
def admitDeployment (s : State) (ds : List Deployment) (d : Deployment) (now : Nat) : State :=
  { cluster := { s.cluster with
      cpu_used := s.cluster.cpu_used + d.cpu_required,
      ram_used := s.cluster.ram_used + d.memory_required,
      gpu_used := s.cluster.gpu_used + d.gpu_required },
    deployments := ds.map (fun e =>
      if e.id == d.id then
        { e with status := DeploymentStatus.scheduled, scheduled_at := some now }
      else e) }

/-- `schedule_deployment` (lines 64-111).  The background start task of
line 109 is a separate later step (`start_deployment`). -/
def schedule_deployment (s : State) (d : Deployment) (now : Nat) : State :=
  let deps := dependenciesOf s d
  if !deps.isEmpty && !deps.all (fun e => e.status == DeploymentStatus.completed) then s
  else
    let available_cpu := s.cluster.cpu_limit - s.cluster.cpu_used
    let available_memory := s.cluster.ram_limit - s.cluster.ram_used
    let available_gpu := s.cluster.gpu_limit - s.cluster.gpu_used
    if available_cpu ≥ d.cpu_required ∧ available_memory ≥ d.memory_required ∧
        available_gpu ≥ d.gpu_required then
      admitDeployment s s.deployments d now
    else if d.priority ≥ DeploymentPriority.HIGH then
      let pr := preempt_lower_priority_deployments s d.cpu_required d.memory_required
        d.gpu_required d.priority
      if pr.1 then admitDeployment s pr.2 d now
      else { s with deployments := setStatus d.id DeploymentStatus.pending pr.2 }
    else { s with deployments := setStatus d.id DeploymentStatus.pending s.deployments }

/-- `start_deployment` (lines 114-123): the background start callback. -/
def start_deployment (s : State) (deployment_id : Nat) (now : Nat) : State :=
  match s.deployments.find? (fun d => d.id == deployment_id) with
  | none => s
  | some d =>
    if d.status == DeploymentStatus.scheduled then
      { s with deployments := s.deployments.map (fun e =>
          if e.id == deployment_id then
            { e with status := DeploymentStatus.running, started_at := some now }
          else e) }
    else s

/-- Error kinds of `create_deployment`, from the spec's interface
`Error{ClusterNotFound, InvalidResourceSpec, DependencyNotFound,
CycleDetected, CrossClusterDependency}` (spec §6).  The source raises only
the first three (404 cluster access, 422 schema validation, 400 dependency
lookup); `cycleDetected` is present so that the spec's claimed error can be
stated and compared against what the code returns. -/
inductive CreateError where
  | clusterNotFound
  | dependencyNotFound
  | cycleDetected
  deriving DecidableEq, Repr

/-- The creation payload `DeploymentCreate` (`app/schemas/deployment.py`);
`dependency_ids` is a set of ids, embedded as a duplicate-free list. -/
structure DeploymentCreate where
  cluster_id : Nat
  cpu_required : ℚ
  memory_required : ℚ
  gpu_required : Int
  priority : Nat
  dependency_ids : List Nat
  deriving DecidableEq, Repr

/-- `create_deployment` (lines 126-172).  `newId` is the fresh primary key
the database assigns on insert.  The dependency query of lines 151-153
filters by id membership and by the cluster; a length mismatch raises 400
before anything is persisted (line 155, before `db.add` at 162). -/
def create_deployment (s : State) (inp : DeploymentCreate) (newId : Nat) (now : Nat) :
    Except CreateError State :=
  if inp.cluster_id ≠ s.cluster.id then Except.error CreateError.clusterNotFound
  else
    let deps := s.deployments.filter (fun e =>
      inp.dependency_ids.contains e.id && e.cluster_id == s.cluster.id)
    if inp.dependency_ids ≠ [] ∧ deps.length ≠ inp.dependency_ids.length then
      Except.error CreateError.dependencyNotFound
    else
      let d : Deployment :=
        { id := newId, cluster_id := inp.cluster_id,
          cpu_required := inp.cpu_required, memory_required := inp.memory_required,
          gpu_required := inp.gpu_required, priority := inp.priority,
          status := initialStatus, scheduled_at := none, started_at := none,
          dependency_ids := inp.dependency_ids }
      let s1 : State := { s with deployments := s.deployments ++ [d] }
      if deps.isEmpty || deps.all (fun e => e.status == DeploymentStatus.completed) then
        Except.ok (schedule_deployment s1 d now)
      else Except.ok s1

/-- Error kind of `delete_deployment`. -/
inductive DeleteError where
  | notFound
  deriving DecidableEq, Repr

/-- `delete_deployment` (lines 195-221): free the reservation only when the
row is RUNNING (lines 210-216), then delete the row. -/
def delete_deployment (s : State) (deployment_id : Nat) : Except DeleteError State :=
  match s.deployments.find? (fun d => d.id == deployment_id) with
  | none => Except.error DeleteError.notFound
  | some d =>
    let s1 : State :=
      if d.status == DeploymentStatus.running then
        { s with cluster := { s.cluster with
            cpu_used := s.cluster.cpu_used - d.cpu_required,
            ram_used := s.cluster.ram_used - d.memory_required,
            gpu_used := s.cluster.gpu_used - d.gpu_required } }
      else s
    Except.ok { s1 with deployments := s1.deployments.filter (fun e => e.id != deployment_id) }

/-- Release a RUNNING deployment's reservation and mark it COMPLETED. -/
def releaseAndComplete (s : State) (deployment_id : Nat) (d : Deployment) : State :=
  { cluster := { s.cluster with
      cpu_used := s.cluster.cpu_used - d.cpu_required,
      ram_used := s.cluster.ram_used - d.memory_required,
      gpu_used := s.cluster.gpu_used - d.gpu_required },
    deployments := s.deployments.map (fun e =>
      if e.id == deployment_id then { e with status := DeploymentStatus.completed } else e) }

/-- The newly-ready dependents of a just-completed deployment: PENDING
dependents all of whose dependencies are now COMPLETED. -/
def readyDependents (s : State) (deployment_id : Nat) : List Deployment :=
  s.deployments.filter (fun e =>
    e.dependency_ids.contains deployment_id && e.status == DeploymentStatus.pending &&
      (dependenciesOf s e).all (fun x => x.status == DeploymentStatus.completed))

/-- Modelled from the spec: no completion operation exists under `src/` (the
spec counts "the two versions of the deployment endpoint" among the sources,
but only one version is present; `schedule_deployment` and
`create_deployment` consume the COMPLETED status it produces).  Spec §4.5:
`complete(deployment)` is valid only from RUNNING; it releases the
reservation in the Ledger, marks COMPLETED, asks the Dependency Graph for
newly-ready dependents, and re-runs scheduling for each of them. -/
def complete_deployment (s : State) (deployment_id : Nat) (now : Nat) : State :=
  match s.deployments.find? (fun d => d.id == deployment_id) with
  | none => s
  | some d =>
    if d.status == DeploymentStatus.running then
      let s1 := releaseAndComplete s deployment_id d
      (readyDependents s1 deployment_id).foldl (fun st e => schedule_deployment st e now) s1
    else s

/-! ## Invariants -/

/-- The deployments of a state currently holding a reservation. -/
def reservedDeployments (s : State) : List Deployment :=
  s.deployments.filter (fun d =>
    d.status == DeploymentStatus.scheduled || d.status == DeploymentStatus.running)

/-- Spec §8: `used_x == Σ required_x over deployments in {SCHEDULED, RUNNING}`
in every resource dimension. -/
def LedgerInvariant (s : State) : Prop :=
  s.cluster.cpu_used = cpuOf (reservedDeployments s) ∧
  s.cluster.ram_used = memOf (reservedDeployments s) ∧
  s.cluster.gpu_used = gpuOf (reservedDeployments s)

/-- Spec §3: `used ≤ limit` in every resource dimension. -/
def UsageWithinLimits (s : State) : Prop :=
  s.cluster.cpu_used ≤ s.cluster.cpu_limit ∧
  s.cluster.ram_used ≤ s.cluster.ram_limit ∧
  s.cluster.gpu_used ≤ s.cluster.gpu_limit

/-! ## Concrete scenario: preemption on the spec's `(10, 32, 2)` cluster

The sequence of `tests/api/test_deployments.py::test_preemption`: an
`(8, 16, 0)` LOW deployment is created and started, then an `(8, 16, 0)`
CRITICAL deployment is created, which preempts the LOW one. -/

/-- The `(cpu=10, ram=32, gpu=2)` cluster of the spec's scenarios and of the
test fixtures. -/
def scenarioCluster : Cluster :=
  { id := 0, cpu_limit := 10, ram_limit := 32, gpu_limit := 2,
    cpu_used := 0, ram_used := 0, gpu_used := 0 }

/-- The initial state: no deployments. -/
def scenarioInit : State := { cluster := scenarioCluster, deployments := [] }

/-- The low-priority request of `test_preemption`: `(8, 16, 0)` at LOW. -/
def lowRequest : DeploymentCreate :=
  { cluster_id := 0, cpu_required := 8, memory_required := 16,
    gpu_required := 0, priority := DeploymentPriority.LOW, dependency_ids := [] }

/-- The high-priority request of `test_preemption`: `(8, 16, 0)` at CRITICAL. -/
def criticalRequest : DeploymentCreate :=
  { cluster_id := 0, cpu_required := 8, memory_required := 16,
    gpu_required := 0, priority := DeploymentPriority.CRITICAL, dependency_ids := [] }

/-- State after submitting the LOW deployment (admitted, SCHEDULED). -/
def afterLowCreate : State :=
  (create_deployment scenarioInit lowRequest 1 0).toOption.getD scenarioInit

/-- State after the background start callback: the LOW deployment RUNNING. -/
def afterLowStart : State := start_deployment afterLowCreate 1 1

/-- State after submitting the CRITICAL deployment, admitted via preemption
of the LOW one. -/
def afterCriticalCreate : State :=
  (create_deployment afterLowStart criticalRequest 2 2).toOption.getD afterLowStart


/-- The LOW deployment row as it stands after being started. -/
def row1running : Deployment :=
  { id := 1, cluster_id := 0, cpu_required := 8, memory_required := 16, gpu_required := 0,
    priority := 0, status := DeploymentStatus.running, scheduled_at := some 0,
    started_at := some 1, dependency_ids := [] }

/-- The LOW deployment row after being preempted. -/
def row1preempted : Deployment := { row1running with status := DeploymentStatus.preempted }

/-- The CRITICAL deployment row after being admitted via preemption. -/
def row2scheduled : Deployment :=
  { id := 2, cluster_id := 0, cpu_required := 8, memory_required := 16, gpu_required := 0,
    priority := 3, status := DeploymentStatus.scheduled, scheduled_at := some 2,
    started_at := none, dependency_ids := [] }


/-- A SCHEDULED deployment holding a `(2, 8, 1)` reservation. -/
def schedRow : Deployment :=
  { id := 7, cluster_id := 0, cpu_required := 2, memory_required := 8, gpu_required := 1,
    priority := 1, status := DeploymentStatus.scheduled, scheduled_at := some 0,
    started_at := none, dependency_ids := [] }

/-- A state whose used counters carry exactly `schedRow`'s reservation. -/
def schedState : State :=
  { cluster := { scenarioCluster with cpu_used := 2, ram_used := 8, gpu_used := 1 },
    deployments := [schedRow] }

/-- A RUNNING deployment holding a `(2, 8, 1)` reservation. -/
def runRow : Deployment :=
  { schedRow with id := 8, status := DeploymentStatus.running, started_at := some 1 }

/-- A state whose used counters carry exactly `runRow`'s reservation. -/
def runState : State :=
  { cluster := { scenarioCluster with cpu_used := 2, ram_used := 8, gpu_used := 1 },
    deployments := [runRow] }


/-- A RUNNING LOW-priority deployment requiring `(6, 16, 0)`. -/
def victim6 : Deployment :=
  { id := 3, cluster_id := 0, cpu_required := 6, memory_required := 16, gpu_required := 0,
    priority := 0, status := DeploymentStatus.running, scheduled_at := some 0,
    started_at := some 1, dependency_ids := [] }

/-- A PENDING CRITICAL candidate requiring `(8, 20, 0)`. -/
def cand8 : Deployment :=
  { id := 4, cluster_id := 0, cpu_required := 8, memory_required := 20, gpu_required := 0,
    priority := 3, status := DeploymentStatus.pending, scheduled_at := none,
    started_at := none, dependency_ids := [] }

/-- The `(10, 32, 2)` cluster with `victim6` running (`used = (6, 16, 0)`,
so `available = (4, 16, 2)`) and `cand8` pending. -/
def c4State : State :=
  { cluster := { scenarioCluster with cpu_used := 6, ram_used := 16, gpu_used := 0 },
    deployments := [victim6, cand8] }


/-- A PENDING CRITICAL candidate requiring `(20, 1, 0)` — more CPU than the
cluster and all eligible victims together can provide. -/
def cand20 : Deployment :=
  { id := 5, cluster_id := 0, cpu_required := 20, memory_required := 1, gpu_required := 0,
    priority := 3, status := DeploymentStatus.pending, scheduled_at := none,
    started_at := none, dependency_ids := [] }

/-- The `(10, 32, 2)` cluster with `victim6` running and `cand20` pending. -/
def c8State : State :=
  { cluster := { scenarioCluster with cpu_used := 6, ram_used := 16, gpu_used := 0 },
    deployments := [victim6, cand20] }


/-- A RUNNING MEDIUM-priority deployment started at time `10`. -/
def tieRowA : Deployment :=
  { id := 1, cluster_id := 0, cpu_required := 1, memory_required := 1, gpu_required := 0,
    priority := 1, status := DeploymentStatus.running, scheduled_at := some 0,
    started_at := some 10, dependency_ids := [] }

/-- A RUNNING MEDIUM-priority deployment started earlier, at time `5`, but
stored after `tieRowA`. -/
def tieRowB : Deployment :=
  { id := 2, cluster_id := 0, cpu_required := 1, memory_required := 1, gpu_required := 0,
    priority := 1, status := DeploymentStatus.running, scheduled_at := some 0,
    started_at := some 5, dependency_ids := [] }

/-- Two equal-priority running deployments whose start order is the reverse
of their stored order. -/
def tieState : State :=
  { cluster := { scenarioCluster with cpu_used := 2, ram_used := 2, gpu_used := 0 },
    deployments := [tieRowA, tieRowB] }

/-- Stated from the spec's words (§4.4), for comparison with the code's
`eligibleVictims`: candidates are visited in ascending priority order,
within a priority tier in ascending start order (oldest-started first), with
ties broken by deployment identity. -/
def specVisitLE (a b : Deployment) : Prop :=
  a.priority < b.priority ∨ (a.priority = b.priority ∧
    (a.started_at.getD 0 < b.started_at.getD 0 ∨
      (a.started_at.getD 0 = b.started_at.getD 0 ∧ a.id ≤ b.id)))

instance : DecidableRel specVisitLE := fun a b => by unfold specVisitLE; infer_instance

/-- The visiting order the spec claims, stated from its words. -/
def specVisitOrder (s : State) (priority_floor : Nat) : List Deployment :=
  (runningBelow s priority_floor).insertionSort specVisitLE


/-- A PENDING deployment `A` for the dependency-gating scenario. -/
def wPendingA : Deployment :=
  { id := 11, cluster_id := 0, cpu_required := 1, memory_required := 1, gpu_required := 0,
    priority := 1, status := DeploymentStatus.pending, scheduled_at := none,
    started_at := none, dependency_ids := [] }

/-- The creation payload of `B`, depending on `A` (id `11`). -/
def wCreateB : DeploymentCreate :=
  { cluster_id := 0, cpu_required := 1, memory_required := 1, gpu_required := 0,
    priority := 1, dependency_ids := [11] }

/-- State for creating `B`: ample free capacity, `A` still PENDING. -/
def wStateA : State := { cluster := scenarioCluster, deployments := [wPendingA] }

/-- `A` as a RUNNING deployment holding its `(1, 1, 0)` reservation. -/
def wRunningA : Deployment :=
  { wPendingA with
    status := DeploymentStatus.running
    scheduled_at := some 0
    started_at := some 1 }

/-- `B` as created: PENDING, depending on `A`. -/
def wPendingB : Deployment :=
  { id := 12, cluster_id := 0, cpu_required := 1, memory_required := 1, gpu_required := 0,
    priority := 1, status := DeploymentStatus.pending, scheduled_at := none,
    started_at := none, dependency_ids := [11] }

/-- State for completing `A`: `A` RUNNING, `B` PENDING behind it. -/
def wStateB : State :=
  { cluster := { scenarioCluster with cpu_used := 1, ram_used := 1, gpu_used := 0 },
    deployments := [wRunningA, wPendingB] }


/-- The dependency-graph edge over a row list: deployment `a` depends on
deployment `b`. -/
def DepEdge (ds : List Deployment) (a b : Nat) : Prop :=
  ∃ d ∈ ds, d.id = a ∧ b ∈ d.dependency_ids

/-- Acyclicity of the dependency graph: no deployment reaches itself through
one or more dependency edges. -/
def DepAcyclic (ds : List Deployment) : Prop :=
  ∀ a, ¬ Relation.TransGen (DepEdge ds) a a

/-- The only expressible cycle attempt: a creation payload depending on the
very id (`12`) the database will assign to the new deployment. -/
def cycAttempt : DeploymentCreate :=
  { cluster_id := 0, cpu_required := 1, memory_required := 1, gpu_required := 0,
    priority := 1, dependency_ids := [12] }


/-- A wider `(20, 64, 2)` cluster for the over-limit preemption trace. -/
def wideCluster : Cluster :=
  { id := 0, cpu_limit := 20, ram_limit := 64, gpu_limit := 2,
    cpu_used := 0, ram_used := 0, gpu_used := 0 }

/-- The empty initial state on the wide cluster. -/
def wideInit : State := { cluster := wideCluster, deployments := [] }

/-- A `(10, 16, 0)` request at LOW priority. -/
def lowReq10 : DeploymentCreate :=
  { cluster_id := 0, cpu_required := 10, memory_required := 16,
    gpu_required := 0, priority := DeploymentPriority.LOW, dependency_ids := [] }

/-- A `(10, 16, 0)` request at HIGH priority. -/
def highReq10 : DeploymentCreate :=
  { cluster_id := 0, cpu_required := 10, memory_required := 16,
    gpu_required := 0, priority := DeploymentPriority.HIGH, dependency_ids := [] }

/-- A `(10, 16, 0)` request at CRITICAL priority. -/
def critReq10 : DeploymentCreate :=
  { cluster_id := 0, cpu_required := 10, memory_required := 16,
    gpu_required := 0, priority := DeploymentPriority.CRITICAL, dependency_ids := [] }

/-- After submitting the first LOW deployment. -/
def w1 : State := (create_deployment wideInit lowReq10 1 0).toOption.getD wideInit

/-- After starting the first LOW deployment. -/
def w2 : State := start_deployment w1 1 1

/-- After submitting the second LOW deployment. -/
def w3 : State := (create_deployment w2 lowReq10 2 2).toOption.getD w2

/-- After starting the second LOW deployment (`used = (20, 32, 0)`). -/
def w4 : State := start_deployment w3 2 3

/-- After the HIGH submit, admitted by preempting the first LOW deployment:
its reservation is not credited back, so `used = (30, 48, 0)` exceeds the
CPU limit `20`. -/
def w5 : State := (create_deployment w4 highReq10 3 4).toOption.getD w4

/-- After the CRITICAL submit, admitted by preempting the second LOW
deployment from the over-limit state `w5`. -/
def w6 : State := (create_deployment w5 critReq10 4 5).toOption.getD w5

/-- The first LOW deployment as a RUNNING row. -/
def wLow1Run : Deployment :=
  { id := 1, cluster_id := 0, cpu_required := 10, memory_required := 16, gpu_required := 0,
    priority := 0, status := DeploymentStatus.running, scheduled_at := some 0,
    started_at := some 1, dependency_ids := [] }

/-- The second LOW deployment as a RUNNING row. -/
def wLow2Run : Deployment :=
  { id := 2, cluster_id := 0, cpu_required := 10, memory_required := 16, gpu_required := 0,
    priority := 0, status := DeploymentStatus.running, scheduled_at := some 2,
    started_at := some 3, dependency_ids := [] }

/-- The first LOW deployment after being preempted by the HIGH one. -/
def wLow1Pre : Deployment := { wLow1Run with status := DeploymentStatus.preempted }

/-- The second LOW deployment after being preempted by the CRITICAL one. -/
def wLow2Pre : Deployment := { wLow2Run with status := DeploymentStatus.preempted }

/-- The HIGH deployment as admitted (SCHEDULED). -/
def wHigh3Sched : Deployment :=
  { id := 3, cluster_id := 0, cpu_required := 10, memory_required := 16, gpu_required := 0,
    priority := 2, status := DeploymentStatus.scheduled, scheduled_at := some 4,
    started_at := none, dependency_ids := [] }

/-- The CRITICAL deployment as admitted (SCHEDULED) via preemption from the
over-limit state. -/
def wCrit4Sched : Deployment :=
  { id := 4, cluster_id := 0, cpu_required := 10, memory_required := 16, gpu_required := 0,
    priority := 3, status := DeploymentStatus.scheduled, scheduled_at := some 5,
    started_at := none, dependency_ids := [] }

/-! ## Proofs -/

/-- Boolean status comparison is decidable propositional equality. -/
theorem beq_status_eq_decide (a b : DeploymentStatus) : (a == b) = decide (a = b) := rfl

/-- Evaluation of the scenario up to the started LOW deployment. -/
theorem afterLowStart_eq :
    afterLowStart =
      { cluster := { scenarioCluster with cpu_used := 8, ram_used := 16, gpu_used := 0 },
        deployments := [row1running] } := by
  norm_num [afterLowStart, afterLowCreate, scenarioInit, scenarioCluster, lowRequest,
    create_deployment, schedule_deployment, admitDeployment,
    preempt_lower_priority_deployments, chosenVictims, eligibleVictims, runningBelow,
    sortByPriority, selectVictims, markPreempted, setStatus, dependenciesOf,
    cpuOf, memOf, gpuOf, start_deployment, initialStatus, DeploymentPriority.HIGH,
    DeploymentPriority.LOW, List.insertionSort, List.orderedInsert, priorityLE,
    Except.toOption, beq_status_eq_decide, List.filter_cons, row1running]

/-- Evaluation of the scenario through the preempting CRITICAL submit. -/
theorem afterCriticalCreate_eq :
    afterCriticalCreate =
      { cluster := { scenarioCluster with cpu_used := 16, ram_used := 32, gpu_used := 0 },
        deployments := [row1preempted, row2scheduled] } := by
  rw [afterCriticalCreate, afterLowStart_eq]
  norm_num [scenarioCluster, criticalRequest,
    create_deployment, schedule_deployment, admitDeployment,
    preempt_lower_priority_deployments, chosenVictims, eligibleVictims, runningBelow,
    sortByPriority, selectVictims, markPreempted, setStatus, dependenciesOf,
    cpuOf, memOf, gpuOf, initialStatus, DeploymentPriority.HIGH,
    DeploymentPriority.CRITICAL, List.insertionSort, List.orderedInsert, priorityLE,
    Except.toOption, beq_status_eq_decide, List.filter_cons, row1running, row1preempted,
    row2scheduled]

/-- C1: the claim states that at every quiescent point each cluster's used
counters equal the sum of requirements over its SCHEDULED/RUNNING
deployments, because preemption credits each victim's reservation back
before the candidate's request is reserved.  The code never credits victims
back: after the CRITICAL deployment is admitted via preemption of the LOW
one, `cpu_used` is `16` while the only SCHEDULED/RUNNING deployment requires
`8` (similarly `ram_used` is `32` against `16`).  The invariant held at the
preceding quiescent point, so the preemption step itself breaks it. -/
theorem c1_ledger_sum_broken_by_preemption :
    LedgerInvariant afterLowStart ∧
    ¬ LedgerInvariant afterCriticalCreate ∧
    afterCriticalCreate.cluster.cpu_used = 16 ∧
    cpuOf (reservedDeployments afterCriticalCreate) = 8 := by
  rw [afterLowStart_eq, afterCriticalCreate_eq]
  refine ⟨?_, ?_, ?_, ?_⟩ <;>
    simp [LedgerInvariant, reservedDeployments, cpuOf, memOf, gpuOf, scenarioCluster,
      row1running, row1preempted, row2scheduled, beq_status_eq_decide]

/-- C2: the claim states that `used ≤ limit` is preserved by every scheduler
operation.  Admission via preemption violates it: starting from a state
satisfying the bound (`used = (8, 16, 0)` against limits `(10, 32, 2)`), one
completed submit of a CRITICAL `(8, 16, 0)` deployment preempts the LOW one
without crediting its reservation back and reserves the candidate on top,
leaving `cpu_used = 16 > 10 = cpu_limit` (and `ram_used = 32 = ram_limit`
only coincidentally at the bound). -/
theorem c2_usage_bound_broken_by_preemption :
    UsageWithinLimits afterLowStart ∧
    ¬ UsageWithinLimits afterCriticalCreate ∧
    afterCriticalCreate.cluster.cpu_used = 16 ∧
    afterCriticalCreate.cluster.cpu_limit = 10 := by
  rw [afterLowStart_eq, afterCriticalCreate_eq]
  refine ⟨?_, ?_, ?_, ?_⟩ <;>
    simp [UsageWithinLimits, scenarioCluster, row1running, row1preempted, row2scheduled] <;>
    norm_num

/-- C3 counterexample: the claim says every RUNNING **or SCHEDULED**
deployment has its reservation released on deletion.  Deleting the SCHEDULED
deployment `schedRow` (which holds a `(2, 8, 1)` reservation) removes the
record but leaves the cluster's used counters untouched at `(2, 8, 1)` — in
particular `cpu_used` is not decremented by `cpu_required`. -/
theorem c3_counterexample_scheduled_delete_leaks :
    delete_deployment schedState 7 =
      Except.ok { cluster := schedState.cluster, deployments := [] } ∧
    schedState.cluster.cpu_used = 2 ∧
    ¬ ((delete_deployment schedState 7).toOption.getD schedState).cluster.cpu_used
        = schedState.cluster.cpu_used - schedRow.cpu_required := by
  refine ⟨?_, ?_, ?_⟩ <;>
    simp [delete_deployment, schedState, schedRow, scenarioCluster,
      beq_status_eq_decide, Except.toOption, List.filter_cons]

/-- C3 (amended): `delete_deployment` releases the reservation (decrements
the cluster's used CPU, RAM and GPU by exactly the deployment's
requirements) before removing the record only when the deployment's status
is RUNNING; for any other status — including SCHEDULED, which also holds a
reservation — the record is removed with the cluster untouched. -/
theorem c3_amended_delete_releases_only_running
    (s : State) (dId : Nat) (d : Deployment)
    (hfind : s.deployments.find? (fun e => e.id == dId) = some d) :
    (d.status = DeploymentStatus.running →
      delete_deployment s dId = Except.ok
        { cluster := { s.cluster with
            cpu_used := s.cluster.cpu_used - d.cpu_required,
            ram_used := s.cluster.ram_used - d.memory_required,
            gpu_used := s.cluster.gpu_used - d.gpu_required },
          deployments := s.deployments.filter (fun e => e.id != dId) }) ∧
    (d.status ≠ DeploymentStatus.running →
      delete_deployment s dId = Except.ok
        { cluster := s.cluster,
          deployments := s.deployments.filter (fun e => e.id != dId) }) := by
  unfold delete_deployment
  rw [hfind]
  constructor
  · intro h
    simp [beq_status_eq_decide, h]
  · intro h
    simp [beq_status_eq_decide, h]

/-- Witness for C3 (amended): deleting the RUNNING deployment `runRow`
releases its `(2, 8, 1)` reservation exactly, emptying the used counters. -/
theorem c3_amended_witness :
    delete_deployment runState 8 = Except.ok
      { cluster := { runState.cluster with cpu_used := 0, ram_used := 0, gpu_used := 0 },
        deployments := [] } := by
  have h := (c3_amended_delete_releases_only_running runState 8 runRow rfl).1 rfl
  rw [h]
  norm_num [runState, runRow, schedRow, scenarioCluster, List.filter_cons]

/-- Sums of non-negative CPU requirements are non-negative. -/
theorem cpuOf_nonneg {ds : List Deployment} (h : ∀ d ∈ ds, 0 ≤ d.cpu_required) :
    0 ≤ cpuOf ds := by
  refine List.sum_nonneg ?_
  intro x hx
  obtain ⟨d, hd, rfl⟩ := List.mem_map.1 hx
  exact h d hd

/-- Sums of non-negative memory requirements are non-negative. -/
theorem memOf_nonneg {ds : List Deployment} (h : ∀ d ∈ ds, 0 ≤ d.memory_required) :
    0 ≤ memOf ds := by
  refine List.sum_nonneg ?_
  intro x hx
  obtain ⟨d, hd, rfl⟩ := List.mem_map.1 hx
  exact h d hd

/-- Sums of non-negative GPU requirements are non-negative. -/
theorem gpuOf_nonneg {ds : List Deployment} (h : ∀ d ∈ ds, 0 ≤ d.gpu_required) :
    0 ≤ gpuOf ds := by
  refine List.sum_nonneg ?_
  intro x hx
  obtain ⟨d, hd, rfl⟩ := List.mem_map.1 hx
  exact h d hd

/-- The accumulated victim prefix covers the request (on top of the initial
accumulators) exactly when the whole candidate list does: the loop breaks
only once all three dimensions are covered, and leftover candidates have
non-negative requirements. -/
theorem selectVictims_covers_iff (rc rm : ℚ) (rg : Int) (ds : List Deployment) :
    ∀ (fc fm : ℚ) (fg : Int),
      (∀ d ∈ ds, 0 ≤ d.cpu_required ∧ 0 ≤ d.memory_required ∧ 0 ≤ d.gpu_required) →
      ((rc ≤ fc + cpuOf (selectVictims rc rm rg fc fm fg ds) ∧
        rm ≤ fm + memOf (selectVictims rc rm rg fc fm fg ds) ∧
        rg ≤ fg + gpuOf (selectVictims rc rm rg fc fm fg ds)) ↔
       (rc ≤ fc + cpuOf ds ∧ rm ≤ fm + memOf ds ∧ rg ≤ fg + gpuOf ds)) := by
  induction ds with
  | nil => intro fc fm fg _; exact Iff.rfl
  | cons d rest ih =>
    intro fc fm fg h
    have hrest : ∀ e ∈ rest,
        0 ≤ e.cpu_required ∧ 0 ≤ e.memory_required ∧ 0 ≤ e.gpu_required :=
      fun e he => h e (List.mem_cons_of_mem d he)
    have hc : (0:ℚ) ≤ (rest.map Deployment.cpu_required).sum :=
      cpuOf_nonneg fun e he => (hrest e he).1
    have hm : (0:ℚ) ≤ (rest.map Deployment.memory_required).sum :=
      memOf_nonneg fun e he => (hrest e he).2.1
    have hg : (0:Int) ≤ (rest.map Deployment.gpu_required).sum :=
      gpuOf_nonneg fun e he => (hrest e he).2.2
    rw [selectVictims]
    by_cases hcov : fc + d.cpu_required ≥ rc ∧ fm + d.memory_required ≥ rm ∧
        fg + d.gpu_required ≥ rg
    · obtain ⟨h1, h2, h3⟩ := hcov
      rw [if_pos ⟨h1, h2, h3⟩]
      simp only [cpuOf, memOf, gpuOf, List.map_cons, List.map_nil, List.sum_cons,
        List.sum_nil, add_zero]
      constructor
      · rintro ⟨-, -, -⟩
        exact ⟨by linarith, by linarith, by linarith⟩
      · rintro ⟨-, -, -⟩
        exact ⟨by linarith, by linarith, by linarith⟩
    · rw [if_neg hcov]
      have key := ih (fc + d.cpu_required) (fm + d.memory_required)
        (fg + d.gpu_required) hrest
      simp only [cpuOf, memOf, gpuOf, List.map_cons, List.sum_cons] at key ⊢
      constructor
      · rintro ⟨p1, p2, p3⟩
        obtain ⟨q1, q2, q3⟩ := key.1 ⟨by linarith, by linarith, by linarith⟩
        exact ⟨by linarith, by linarith, by linarith⟩
      · rintro ⟨p1, p2, p3⟩
        obtain ⟨q1, q2, q3⟩ := key.2 ⟨by linarith, by linarith, by linarith⟩
        exact ⟨by linarith, by linarith, by linarith⟩

/-- Sorting does not change the CPU sum. -/
theorem cpuOf_sortByPriority (ds : List Deployment) : cpuOf (sortByPriority ds) = cpuOf ds :=
  ((List.perm_insertionSort priorityLE ds).map Deployment.cpu_required).sum_eq

/-- Sorting does not change the memory sum. -/
theorem memOf_sortByPriority (ds : List Deployment) : memOf (sortByPriority ds) = memOf ds :=
  ((List.perm_insertionSort priorityLE ds).map Deployment.memory_required).sum_eq

/-- Sorting does not change the GPU sum. -/
theorem gpuOf_sortByPriority (ds : List Deployment) : gpuOf (sortByPriority ds) = gpuOf ds :=
  ((List.perm_insertionSort priorityLE ds).map Deployment.gpu_required).sum_eq

/-- Candidates are stored rows. -/
theorem mem_eligibleVictims {s : State} {p : Nat} {d : Deployment}
    (h : d ∈ eligibleVictims s p) : d ∈ s.deployments := by
  rw [eligibleVictims, sortByPriority, List.mem_insertionSort, runningBelow,
    List.mem_filter] at h
  exact h.1

/-- C4 counterexample: the claim says the selector works against the
per-dimension deficit, so a victim set whose freed resources plus available
capacity cover the request suffices.  On `c4State` the request `(8, 20, 0)`
at CRITICAL has deficit `(4, 4, 0)` against available `(4, 16, 2)`, and the
sole eligible victim frees `(6, 16, 0)`, covering the deficit in every
dimension — yet the selector returns `False` and selects no one, because the
code compares freed resources against the full request, ignoring available
capacity. -/
theorem c4_counterexample_deficit_ignored :
    (preempt_lower_priority_deployments c4State 8 20 0 3).1 = false ∧
    cpuOf (runningBelow c4State 3) + (c4State.cluster.cpu_limit - c4State.cluster.cpu_used) ≥ 8 ∧
    memOf (runningBelow c4State 3) + (c4State.cluster.ram_limit - c4State.cluster.ram_used) ≥ 20 ∧
    gpuOf (runningBelow c4State 3) + (c4State.cluster.gpu_limit - c4State.cluster.gpu_used) ≥ 0 ∧
    schedule_deployment c4State cand8 5 =
      { c4State with deployments := setStatus 4 DeploymentStatus.pending c4State.deployments } := by
  refine ⟨?_, ?_, ?_, ?_, ?_⟩ <;>
    simp [preempt_lower_priority_deployments, chosenVictims, eligibleVictims, runningBelow,
      sortByPriority, selectVictims, cpuOf, memOf, gpuOf, c4State, victim6, cand8,
      scenarioCluster, schedule_deployment, dependenciesOf, setStatus, admitDeployment,
      DeploymentPriority.HIGH, List.insertionSort, List.orderedInsert, priorityLE,
      beq_status_eq_decide, List.filter_cons] <;>
    norm_num

/-- C4 (amended): the selector works against the candidate's **full
request**, not the deficit: it accumulates victims until the freed resources
alone reach the request in all three dimensions simultaneously, and it
succeeds exactly when the total resources of all eligible victims (RUNNING,
same cluster, strictly lower priority) reach the full request in every
dimension; the cluster's available capacity plays no part. -/
theorem c4_amended_selector_covers_full_request (s : State) (rc rm : ℚ) (rg : Int) (p : Nat)
    (hpos : ∀ d ∈ s.deployments,
      0 ≤ d.cpu_required ∧ 0 ≤ d.memory_required ∧ 0 ≤ d.gpu_required) :
    (preempt_lower_priority_deployments s rc rm rg p).1 = true ↔
      (rc ≤ cpuOf (runningBelow s p) ∧ rm ≤ memOf (runningBelow s p) ∧
        rg ≤ gpuOf (runningBelow s p)) := by
  have hpos' : ∀ d ∈ eligibleVictims s p,
      0 ≤ d.cpu_required ∧ 0 ≤ d.memory_required ∧ 0 ≤ d.gpu_required :=
    fun d hd => hpos d (mem_eligibleVictims hd)
  have key := selectVictims_covers_iff rc rm rg (eligibleVictims s p) 0 0 0 hpos'
  simp only [zero_add] at key
  rw [preempt_lower_priority_deployments]
  constructor
  · intro h
    have hcond : cpuOf (chosenVictims s rc rm rg p) ≥ rc ∧
        memOf (chosenVictims s rc rm rg p) ≥ rm ∧
        gpuOf (chosenVictims s rc rm rg p) ≥ rg := by
      by_contra hc
      rw [if_neg hc] at h
      exact Bool.false_ne_true h
    have := key.1 ⟨hcond.1, hcond.2.1, hcond.2.2⟩
    rw [eligibleVictims, cpuOf_sortByPriority, memOf_sortByPriority,
      gpuOf_sortByPriority] at this
    exact this
  · intro h
    have h' : rc ≤ cpuOf (eligibleVictims s p) ∧ rm ≤ memOf (eligibleVictims s p) ∧
        rg ≤ gpuOf (eligibleVictims s p) := by
      rw [eligibleVictims, cpuOf_sortByPriority, memOf_sortByPriority, gpuOf_sortByPriority]
      exact h
    have := key.2 h'
    rw [if_pos ⟨this.1, this.2.1, this.2.2⟩]

/-- Witness for C4 (amended) at `c4State` with request `(8, 20, 0)`: the
selector fails because the eligible victims free only `(6, 16, 0)`, below
the full request in the CPU dimension. -/
theorem c4_amended_witness :
    ((preempt_lower_priority_deployments c4State 8 20 0 3).1 = true ↔
      ((8:ℚ) ≤ cpuOf (runningBelow c4State 3) ∧ (20:ℚ) ≤ memOf (runningBelow c4State 3) ∧
        (0:Int) ≤ gpuOf (runningBelow c4State 3))) :=
  c4_amended_selector_covers_full_request c4State 8 20 0 3 (by
    intro d hd
    simp [c4State, victim6, cand8] at hd
    rcases hd with rfl | rfl <;> norm_num [victim6, cand8])

/-- Every selected victim comes from the candidate list. -/
theorem selectVictims_subset (rc rm : ℚ) (rg : Int) :
    ∀ (ds : List Deployment) (fc fm : ℚ) (fg : Int) (v : Deployment),
      v ∈ selectVictims rc rm rg fc fm fg ds → v ∈ ds := by
  intro ds
  induction ds with
  | nil => intro fc fm fg v hv; simp [selectVictims] at hv
  | cons d rest ih =>
    intro fc fm fg v hv
    rw [selectVictims] at hv
    by_cases hcov : fc + d.cpu_required ≥ rc ∧ fm + d.memory_required ≥ rm ∧
        fg + d.gpu_required ≥ rg
    · rw [if_pos hcov] at hv
      simp at hv
      simp [hv]
    · rw [if_neg hcov] at hv
      rcases List.mem_cons.1 hv with h | h
      · simp [h]
      · exact List.mem_cons_of_mem d (ih _ _ _ v h)

/-- Membership in the preemption query result. -/
theorem mem_runningBelow {s : State} {p : Nat} {d : Deployment} :
    d ∈ runningBelow s p ↔
      d ∈ s.deployments ∧ d.cluster_id = s.cluster.id ∧
        d.status = DeploymentStatus.running ∧ d.priority < p := by
  simp [runningBelow, List.mem_filter, beq_status_eq_decide, and_assoc]

/-- Victims inherit membership and eligibility from the stored rows. -/
theorem chosenVictims_mem {s : State} {rc rm : ℚ} {rg : Int} {p : Nat} {v : Deployment}
    (hv : v ∈ chosenVictims s rc rm rg p) :
    v ∈ s.deployments ∧ v.status = DeploymentStatus.running ∧ v.priority < p := by
  have h1 : v ∈ eligibleVictims s p :=
    selectVictims_subset rc rm rg (eligibleVictims s p) 0 0 0 v hv
  have h2 : v ∈ runningBelow s p := by
    rw [eligibleVictims, sortByPriority, List.mem_insertionSort] at h1
    exact h1
  have h3 := mem_runningBelow.1 h2
  exact ⟨h3.1, h3.2.2.1, h3.2.2.2⟩

/-- The conditional admission bound of the preemption helper: every
deployment it marks PREEMPTED was already PREEMPTED or is a RUNNING
deployment of the cluster with priority strictly below the candidate's; and
whenever the selector succeeds, **provided the cluster's used counters are
within limits**, the request is at most the victims' freed resources plus
the cluster's available capacity in every dimension.  The proviso is
essential: the program itself reaches states with `used > limit` (the
preemption accounting bug), and from those the bound fails — see the C7
theorem below. -/
theorem preempt_admission_bound_within_limits
    (s : State) (rc rm : ℚ) (rg : Int) (p : Nat) (hle : UsageWithinLimits s) :
    (∀ d' ∈ (preempt_lower_priority_deployments s rc rm rg p).2,
        d'.status = DeploymentStatus.preempted →
        ∃ d ∈ s.deployments, d.id = d'.id ∧
          (d.status = DeploymentStatus.preempted ∨
            (d.status = DeploymentStatus.running ∧ d.priority < p))) ∧
    ((preempt_lower_priority_deployments s rc rm rg p).1 = true →
      rc ≤ cpuOf (chosenVictims s rc rm rg p) +
          (s.cluster.cpu_limit - s.cluster.cpu_used) ∧
      rm ≤ memOf (chosenVictims s rc rm rg p) +
          (s.cluster.ram_limit - s.cluster.ram_used) ∧
      rg ≤ gpuOf (chosenVictims s rc rm rg p) +
          (s.cluster.gpu_limit - s.cluster.gpu_used)) := by
  obtain ⟨hl1, hl2, hl3⟩ := hle
  rw [preempt_lower_priority_deployments]
  by_cases hcov : cpuOf (chosenVictims s rc rm rg p) ≥ rc ∧
      memOf (chosenVictims s rc rm rg p) ≥ rm ∧
      gpuOf (chosenVictims s rc rm rg p) ≥ rg
  · rw [if_pos hcov]
    refine ⟨?_, ?_⟩
    · intro d' hd' hstat
      simp only [markPreempted] at hd'
      obtain ⟨d, hd, hfd⟩ := List.mem_map.1 hd'
      by_cases hin :
          (((chosenVictims s rc rm rg p).map Deployment.id).contains d.id) = true
      · rw [if_pos hin] at hfd
        have hmem : d.id ∈ (chosenVictims s rc rm rg p).map Deployment.id := by
          simpa using hin
        obtain ⟨v, hv, hvid⟩ := List.mem_map.1 hmem
        obtain ⟨hvmem, hvrun, hvlt⟩ := chosenVictims_mem hv
        refine ⟨v, hvmem, ?_, Or.inr ⟨hvrun, hvlt⟩⟩
        rw [hvid, ← hfd]
      · rw [if_neg hin] at hfd
        subst hfd
        exact ⟨d, hd, rfl, Or.inl hstat⟩
    · intro _
      exact ⟨by linarith [hcov.1], by linarith [hcov.2.1], by linarith [hcov.2.2]⟩
  · rw [if_neg hcov]
    refine ⟨?_, ?_⟩
    · intro d' hd' hstat
      exact ⟨d', hd', rfl, Or.inl hstat⟩
    · intro h
      exact absurd h (by simp)

/-- When the selector fails it returns the stored rows untouched. -/
theorem preempt_false_snd (s : State) (rc rm : ℚ) (rg : Int) (p : Nat)
    (h : (preempt_lower_priority_deployments s rc rm rg p).1 = false) :
    (preempt_lower_priority_deployments s rc rm rg p).2 = s.deployments := by
  rw [preempt_lower_priority_deployments] at h ⊢
  by_cases hcov : cpuOf (chosenVictims s rc rm rg p) ≥ rc ∧
      memOf (chosenVictims s rc rm rg p) ≥ rm ∧
      gpuOf (chosenVictims s rc rm rg p) ≥ rg
  · rw [if_pos hcov] at h
    exact absurd h (by simp)
  · rw [if_neg hcov]

/-- C8: when the selector cannot cover the request after exhausting all
eligible candidates it selects no one: the row list it returns is exactly
the stored one (so no deployment is marked PREEMPTED), and the enclosing
admission attempt leaves the cluster's used counters byte-for-byte unchanged
and merely (re)sets the candidate's status to PENDING. -/
theorem c8_failed_preemption_is_noop (s : State) (d : Deployment) (now : Nat)
    (hdeps : (!(dependenciesOf s d).isEmpty &&
        !(dependenciesOf s d).all (fun e => e.status == DeploymentStatus.completed)) = false)
    (hcap : ¬(s.cluster.cpu_limit - s.cluster.cpu_used ≥ d.cpu_required ∧
        s.cluster.ram_limit - s.cluster.ram_used ≥ d.memory_required ∧
        s.cluster.gpu_limit - s.cluster.gpu_used ≥ d.gpu_required))
    (hfail : (preempt_lower_priority_deployments s d.cpu_required d.memory_required
        d.gpu_required d.priority).1 = false) :
    (preempt_lower_priority_deployments s d.cpu_required d.memory_required
        d.gpu_required d.priority).2 = s.deployments ∧
    schedule_deployment s d now =
      { s with deployments := setStatus d.id DeploymentStatus.pending s.deployments } ∧
    (schedule_deployment s d now).cluster = s.cluster ∧
    (∀ e ∈ (schedule_deployment s d now).deployments,
        e.status = DeploymentStatus.preempted →
        ∃ e0 ∈ s.deployments, e0.id = e.id ∧ e0.status = DeploymentStatus.preempted) ∧
    (∀ e ∈ (schedule_deployment s d now).deployments, e.id = d.id →
        e.status = DeploymentStatus.pending) := by
  have hsnd := preempt_false_snd s d.cpu_required d.memory_required d.gpu_required
    d.priority hfail
  have heq : schedule_deployment s d now =
      { s with deployments := setStatus d.id DeploymentStatus.pending s.deployments } := by
    rw [schedule_deployment]
    rw [hdeps]
    simp only [Bool.false_eq_true, if_false]
    rw [if_neg hcap]
    by_cases hp : d.priority ≥ DeploymentPriority.HIGH
    · rw [if_pos hp]
      simp only [hfail, Bool.false_eq_true, if_false, hsnd]
    · rw [if_neg hp]
  refine ⟨hsnd, heq, by rw [heq], ?_, ?_⟩
  · intro e he hstat
    rw [heq] at he
    simp only [setStatus] at he
    obtain ⟨e0, he0, hfe⟩ := List.mem_map.1 he
    by_cases hid : (e0.id == d.id) = true
    · rw [if_pos hid] at hfe
      rw [← hfe] at hstat
      exact absurd hstat (by simp)
    · rw [if_neg hid] at hfe
      subst hfe
      exact ⟨e0, he0, rfl, hstat⟩
  · intro e he hid
    rw [heq] at he
    simp only [setStatus] at he
    obtain ⟨e0, he0, hfe⟩ := List.mem_map.1 he
    by_cases h0 : (e0.id == d.id) = true
    · rw [if_pos h0] at hfe
      rw [← hfe]
    · rw [if_neg h0] at hfe
      subst hfe
      exact absurd hid (by simpa using h0)

/-- Witness for C8 on `c8State`: the CRITICAL candidate `cand20` requires
`(20, 1, 0)`; available capacity is `(4, 16, 2)` and the only eligible
victim frees `(6, 16, 0)`, so the selector fails and the attempt is a
no-op apart from keeping the candidate PENDING. -/
theorem c8_witness :
    (preempt_lower_priority_deployments c8State 20 1 0 3).2 = c8State.deployments ∧
    schedule_deployment c8State cand20 9 =
      { c8State with
        deployments := setStatus 5 DeploymentStatus.pending c8State.deployments } :=
  ⟨(c8_failed_preemption_is_noop c8State cand20 9
      (by simp [dependenciesOf, c8State, cand20, victim6])
      (by norm_num [c8State, cand20, scenarioCluster])
      (by
        simp [preempt_lower_priority_deployments, chosenVictims, eligibleVictims,
          runningBelow, sortByPriority, selectVictims, cpuOf, memOf, gpuOf, c8State,
          victim6, cand20, scenarioCluster, List.insertionSort, List.orderedInsert,
          priorityLE, beq_status_eq_decide, List.filter_cons]
        norm_num)).1,
   (c8_failed_preemption_is_noop c8State cand20 9
      (by simp [dependenciesOf, c8State, cand20, victim6])
      (by norm_num [c8State, cand20, scenarioCluster])
      (by
        simp [preempt_lower_priority_deployments, chosenVictims, eligibleVictims,
          runningBelow, sortByPriority, selectVictims, cpuOf, memOf, gpuOf, c8State,
          victim6, cand20, scenarioCluster, List.insertionSort, List.orderedInsert,
          priorityLE, beq_status_eq_decide, List.filter_cons]
        norm_num)).2.1⟩

/-- Inserting into a list places the new element before exactly the
equal-priority elements that follow the insertion point, so the filter at
any fixed priority sees the new element first. -/
theorem filter_key_orderedInsert (k : Nat) (d : Deployment) (l : List Deployment) :
    (List.orderedInsert priorityLE d l).filter (fun e => e.priority == k) =
      if d.priority = k then d :: l.filter (fun e => e.priority == k)
      else l.filter (fun e => e.priority == k) := by
  induction l with
  | nil =>
    rw [List.orderedInsert_nil, List.filter_cons]
    by_cases hk : d.priority = k
    · simp [hk]
    · simp [hk]
  | cons b t ih =>
    rw [List.orderedInsert]
    by_cases hdb : priorityLE d b
    · rw [if_pos hdb, List.filter_cons, List.filter_cons]
      by_cases hk : d.priority = k
      · simp [hk, List.filter_cons]
      · simp [hk, List.filter_cons]
    · rw [if_neg hdb]
      have hb : b.priority < d.priority := Nat.lt_of_not_le hdb
      rw [List.filter_cons, ih]
      by_cases hk : d.priority = k
      · have hbk : ¬ b.priority = k := by omega
        simp [hk, hbk, List.filter_cons]
      · by_cases hbk : b.priority = k
        · simp [hk, hbk, List.filter_cons]
        · simp [hk, hbk]

/-- Stability of the priority sort: restricted to any one priority tier, the
sorted candidate list is exactly the stored (insertion-ordered) list. -/
theorem filter_key_insertionSort (k : Nat) (l : List Deployment) :
    (List.insertionSort priorityLE l).filter (fun e => e.priority == k) =
      l.filter (fun e => e.priority == k) := by
  induction l with
  | nil => rfl
  | cons d t ih =>
    rw [List.insertionSort, filter_key_orderedInsert, List.filter_cons]
    by_cases hk : d.priority = k
    · simp [hk, ih]
    · simp [hk, ih]

/-- C9 counterexample: `tieRowA` (started at `10`) and `tieRowB` (started at
`5`) share priority tier `1`.  The claim's order (ascending start time
within the tier) would visit `[2, 1]`, but the code orders by priority only
and visits the stored order `[1, 2]`: the later-started deployment is
visited first. -/
theorem c9_counterexample_ignores_start_time :
    (eligibleVictims tieState 3).map Deployment.id = [1, 2] ∧
    (specVisitOrder tieState 3).map Deployment.id = [2, 1] ∧
    eligibleVictims tieState 3 ≠ specVisitOrder tieState 3 := by
  have h1 : (eligibleVictims tieState 3).map Deployment.id = [1, 2] := by
    simp [eligibleVictims, runningBelow, sortByPriority, tieState, tieRowA, tieRowB,
      scenarioCluster, List.insertionSort, List.orderedInsert, priorityLE,
      beq_status_eq_decide, List.filter_cons]
  have h2 : (specVisitOrder tieState 3).map Deployment.id = [2, 1] := by
    simp [specVisitOrder, runningBelow, tieState, tieRowA, tieRowB, scenarioCluster,
      List.insertionSort, List.orderedInsert, specVisitLE, beq_status_eq_decide,
      List.filter_cons]
  refine ⟨h1, h2, fun h => ?_⟩
  rw [h, h2] at h1
  simp at h1

/-- C9 (amended): the candidate list is ordered by ascending priority only:
it is a permutation of the eligible set (RUNNING deployments of the cluster
with priority strictly below the floor), it is sorted by priority, and
within each priority tier candidates appear in stored (database insertion)
order — the start time and the deployment id play no role in the order. -/
theorem c9_amended_priority_sort_stable_by_insertion (s : State) (p : Nat) :
    List.Sorted priorityLE (eligibleVictims s p) ∧
    List.Perm (eligibleVictims s p) (runningBelow s p) ∧
    ∀ k, (eligibleVictims s p).filter (fun d => d.priority == k) =
      (runningBelow s p).filter (fun d => d.priority == k) := by
  refine ⟨?_, ?_, ?_⟩
  · rw [eligibleVictims, sortByPriority]
    exact List.sorted_insertionSort priorityLE (runningBelow s p)
  · rw [eligibleVictims, sortByPriority]
    exact List.perm_insertionSort priorityLE (runningBelow s p)
  · intro k
    rw [eligibleVictims, sortByPriority]
    exact filter_key_insertionSort k (runningBelow s p)


/-- Updating rows by id commutes with looking a row up by that id. -/
theorem find?_map_update_id (dId : Nat) (f : Deployment → Deployment)
    (hf : ∀ e, (f e).id = e.id) (l : List Deployment) :
    (l.map (fun e => if e.id == dId then f e else e)).find? (fun e => e.id == dId) =
      (l.find? (fun e => e.id == dId)).map (fun e => if e.id == dId then f e else e) := by
  induction l with
  | nil => rfl
  | cons a t ih =>
    by_cases ha : (a.id == dId) = true
    · have hfa : ((if a.id == dId then f a else a).id == dId) = true := by
        rw [if_pos ha, hf a]; exact ha
      have h1 : List.find? (fun e => e.id == dId)
          ((if a.id == dId then f a else a) ::
            t.map (fun e => if e.id == dId then f e else e)) =
          some (if a.id == dId then f a else a) := List.find?_cons_of_pos _ hfa
      have h2 : List.find? (fun e => e.id == dId) (a :: t) = some a :=
        List.find?_cons_of_pos _ ha
      rw [List.map_cons, h1, h2]
      rfl
    · have hfa : ¬ ((if a.id == dId then f a else a).id == dId) = true := by
        rw [if_neg ha]; exact ha
      have h1 : List.find? (fun e => e.id == dId)
          ((if a.id == dId then f a else a) ::
            t.map (fun e => if e.id == dId then f e else e)) =
          List.find? (fun e => e.id == dId)
            (t.map (fun e => if e.id == dId then f e else e)) :=
        List.find?_cons_of_neg _ hfa
      have h2 : List.find? (fun e => e.id == dId) (a :: t) =
          List.find? (fun e => e.id == dId) t := List.find?_cons_of_neg _ ha
      rw [List.map_cons, h1, h2, ih]

/-- Rows found by id are stored rows with that id. -/
theorem find?_id_eq {l : List Deployment} {dId : Nat} {e : Deployment}
    (h : l.find? (fun x => x.id == dId) = some e) : e ∈ l ∧ e.id = dId :=
  ⟨List.mem_of_find?_eq_some h, by simpa using List.find?_some h⟩

/-- Unfolding of the start callback when the id is unknown. -/
theorem start_deployment_of_none {s : State} {dId : Nat} (now : Nat)
    (h : s.deployments.find? (fun e => e.id == dId) = none) :
    start_deployment s dId now = s := by
  rw [start_deployment, h]

/-- Unfolding of the start callback when the id resolves to a row. -/
theorem start_deployment_of_some {s : State} {dId : Nat} {d0 : Deployment} (now : Nat)
    (h : s.deployments.find? (fun e => e.id == dId) = some d0) :
    start_deployment s dId now =
      if (d0.status == DeploymentStatus.scheduled) = true then
        { s with deployments := s.deployments.map (fun e =>
            if e.id == dId then
              { e with status := DeploymentStatus.running, started_at := some now }
            else e) }
      else s := by
  rw [start_deployment, h]

/-- C10: the start callback transitions a deployment to RUNNING only when it
exists and is exactly SCHEDULED, and otherwise changes nothing: an unknown
id is a no-op, a non-SCHEDULED target is a no-op, rows that are not
SCHEDULED (in particular the terminal PREEMPTED/FAILED/COMPLETED states) are
preserved verbatim, every RUNNING row of the result was RUNNING or SCHEDULED
before, the cluster ledger is untouched, and a second invocation for the
same id is absorbed (at most one SCHEDULED→RUNNING transition). -/
theorem c10_start_transitions_only_scheduled (s : State) (dId now now' : Nat)
    (hN : (s.deployments.map Deployment.id).Nodup) :
    (s.deployments.find? (fun e => e.id == dId) = none →
      start_deployment s dId now = s) ∧
    (∀ d ∈ s.deployments, d.id = dId → d.status ≠ DeploymentStatus.scheduled →
      start_deployment s dId now = s) ∧
    (∀ d ∈ s.deployments, d.id = dId → d.status = DeploymentStatus.scheduled →
      { d with status := DeploymentStatus.running, started_at := some now } ∈
        (start_deployment s dId now).deployments) ∧
    (∀ e ∈ s.deployments, e.status ≠ DeploymentStatus.scheduled →
      e ∈ (start_deployment s dId now).deployments) ∧
    (∀ e' ∈ (start_deployment s dId now).deployments,
      e'.status = DeploymentStatus.running →
      ∃ e ∈ s.deployments, e.id = e'.id ∧
        (e.status = DeploymentStatus.running ∨ e.status = DeploymentStatus.scheduled)) ∧
    (start_deployment s dId now).cluster = s.cluster ∧
    start_deployment (start_deployment s dId now) dId now' =
      start_deployment s dId now := by
  have hinj := List.inj_on_of_nodup_map hN
  rcases hfind : s.deployments.find? (fun e => e.id == dId) with _ | d0
  · have hs : start_deployment s dId now = s := start_deployment_of_none now hfind
    refine ⟨fun _ => hs, fun _ _ _ _ => hs, ?_, ?_, ?_, ?_, ?_⟩
    · intro d hd hid hsched
      exact absurd (List.find?_eq_none.1 hfind d hd) (by simp [hid])
    · intro e he _
      rw [hs]; exact he
    · intro e' he' hrun
      rw [hs] at he'
      exact ⟨e', he', rfl, Or.inl hrun⟩
    · rw [hs]
    · rw [hs, start_deployment_of_none now' hfind]
  · obtain ⟨hd0mem, hd0id⟩ := find?_id_eq hfind
    by_cases hsched : d0.status = DeploymentStatus.scheduled
    · have hs : start_deployment s dId now =
          { s with deployments := s.deployments.map (fun e =>
              if e.id == dId then
                { e with status := DeploymentStatus.running, started_at := some now }
              else e) } := by
        rw [start_deployment_of_some now hfind,
          if_pos (by simp [beq_status_eq_decide, hsched])]
      refine ⟨?_, ?_, ?_, ?_, ?_, ?_, ?_⟩
      · intro h; rw [h] at hfind; exact absurd hfind (by simp)
      · intro d hd hid hns
        have : d = d0 := hinj hd hd0mem (by rw [hid, hd0id])
        exact absurd (this ▸ hsched) hns
      · intro d hd hid _
        rw [hs]
        have hfd : (d.id == dId) = true := by simp [hid]
        have heq : (fun e => if e.id == dId then
            { e with status := DeploymentStatus.running, started_at := some now }
            else e) d =
            { d with status := DeploymentStatus.running, started_at := some now } := by
          simp only [hfd, if_true]
        exact heq ▸ List.mem_map_of_mem _ hd
      · intro e he hns
        rw [hs]
        have hne : ¬ (e.id == dId) = true := by
          intro hcon
          have heq : e = d0 := hinj he hd0mem (by rw [hd0id]; simpa using hcon)
          exact hns (heq ▸ hsched)
        have hne' : (e.id == dId) = false := by
          cases h : (e.id == dId)
          · rfl
          · exact absurd h hne
        have heq : (fun x => if x.id == dId then
            { x with status := DeploymentStatus.running, started_at := some now }
            else x) e = e := by
          simp only [hne', Bool.false_eq_true, if_false]
        exact heq ▸ List.mem_map_of_mem _ he
      · intro e' he' hrun
        rw [hs] at he'
        obtain ⟨e, he, hfe⟩ := List.mem_map.1 he'
        by_cases hide : (e.id == dId) = true
        · rw [if_pos hide] at hfe
          have heq : e = d0 := hinj he hd0mem (by rw [hd0id]; simpa using hide)
          exact ⟨e, he, by rw [← hfe], Or.inr (heq ▸ hsched)⟩
        · rw [if_neg hide] at hfe
          subst hfe
          exact ⟨e, he, rfl, Or.inl hrun⟩
      · rw [hs]
      · have hfind2 : (({ s with deployments := s.deployments.map (fun e =>
              if e.id == dId then
                { e with status := DeploymentStatus.running, started_at := some now }
              else e) } : State).deployments).find? (fun e => e.id == dId) =
            some { d0 with status := DeploymentStatus.running, started_at := some now } := by
          show (s.deployments.map (fun e =>
              if e.id == dId then
                { e with status := DeploymentStatus.running, started_at := some now }
              else e)).find? (fun e => e.id == dId) = _
          rw [find?_map_update_id dId (fun e =>
              { e with status := DeploymentStatus.running, started_at := some now })
            (fun e => rfl), hfind]
          have hfd0 : (d0.id == dId) = true := by simp [hd0id]
          simp only [Option.map_some', hfd0, if_true]
        rw [hs, start_deployment_of_some now' hfind2,
          if_neg (by simp [beq_status_eq_decide])]
    · have hs : start_deployment s dId now = s := by
        rw [start_deployment_of_some now hfind,
          if_neg (by simp [beq_status_eq_decide, hsched])]
      refine ⟨fun _ => hs, fun _ _ _ _ => hs, ?_, ?_, ?_, ?_, ?_⟩
      · intro d hd hid hdsched
        have : d0 = d := hinj hd0mem hd (by rw [hid, hd0id])
        exact absurd (this ▸ hdsched) hsched
      · intro e he _
        rw [hs]; exact he
      · intro e' he' hrun
        rw [hs] at he'
        exact ⟨e', he', rfl, Or.inl hrun⟩
      · rw [hs]
      · have hs' : start_deployment s dId now' = s := by
          rw [start_deployment_of_some now' hfind,
            if_neg (by simp [beq_status_eq_decide, hsched])]
        rw [hs, hs']

/-- Witness for C10 on `schedState` (one SCHEDULED row, id `7`): the second
start invocation is absorbed and the ledger is untouched. -/
theorem c10_witness :
    start_deployment (start_deployment schedState 7 3) 7 4 =
      start_deployment schedState 7 3 ∧
    (start_deployment schedState 7 3).cluster = schedState.cluster :=
  ⟨(c10_start_transitions_only_scheduled schedState 7 3 4
      (by simp [schedState, schedRow])).2.2.2.2.2.2,
   (c10_start_transitions_only_scheduled schedState 7 3 4
      (by simp [schedState, schedRow])).2.2.2.2.2.1⟩

/-- Unfolding of the completion handler when the id resolves to a row. -/
theorem complete_deployment_of_some {s : State} {dId : Nat} {d0 : Deployment} (now : Nat)
    (h : s.deployments.find? (fun e => e.id == dId) = some d0) :
    complete_deployment s dId now =
      if (d0.status == DeploymentStatus.running) = true then
        (readyDependents (releaseAndComplete s dId d0) dId).foldl
          (fun st e => schedule_deployment st e now) (releaseAndComplete s dId d0)
      else s := by
  rw [complete_deployment, h]

/-- C5: dependency gating and completion fan-out.  First, creating `B` with
a dependency on a deployment `A` that is not COMPLETED persists `B` with
status PENDING and leaves the cluster's used counters untouched, regardless
of capacity (scheduling is not even attempted).  Second (completion handler
modelled from the spec, no completion operation exists under `src/`): when
`A` is RUNNING and `B` is a PENDING deployment whose only dependency is `A`,
completing `A` re-evaluates the newly-ready dependents through the
scheduler, and `B` is among them. -/
theorem c5_dependency_gating_and_reevaluation :
    (∀ (s : State) (inp : DeploymentCreate) (newId now : Nat) (A : Deployment),
      A ∈ s.deployments → A.cluster_id = s.cluster.id → A.id ∈ inp.dependency_ids →
      A.status ≠ DeploymentStatus.completed → inp.cluster_id = s.cluster.id →
      (s.deployments.filter (fun e =>
          inp.dependency_ids.contains e.id && e.cluster_id == s.cluster.id)).length =
        inp.dependency_ids.length →
      create_deployment s inp newId now = Except.ok
        { s with deployments := s.deployments ++
            [{ id := newId, cluster_id := inp.cluster_id,
               cpu_required := inp.cpu_required, memory_required := inp.memory_required,
               gpu_required := inp.gpu_required, priority := inp.priority,
               status := DeploymentStatus.pending, scheduled_at := none,
               started_at := none, dependency_ids := inp.dependency_ids }] }) ∧
    (∀ (t : State) (A B : Deployment) (now : Nat),
      t.deployments.find? (fun e => e.id == A.id) = some A →
      A.status = DeploymentStatus.running →
      B ∈ t.deployments → B.id ≠ A.id → B.status = DeploymentStatus.pending →
      B.dependency_ids = [A.id] →
      B ∈ readyDependents (releaseAndComplete t A.id A) A.id ∧
      complete_deployment t A.id now =
        (readyDependents (releaseAndComplete t A.id A) A.id).foldl
          (fun st e => schedule_deployment st e now) (releaseAndComplete t A.id A)) := by
  constructor
  · intro s inp newId now A hA hAcl hAin hAnc hcl hlen
    have hAdeps : A ∈ s.deployments.filter (fun e =>
        inp.dependency_ids.contains e.id && e.cluster_id == s.cluster.id) :=
      List.mem_filter.2 ⟨hA, by simp [hAin, hAcl]⟩
    simp only [create_deployment]
    split_ifs with h1 h2 h3
    · exact absurd hcl h1
    · exact absurd hlen h2.2
    · exfalso
      rcases Bool.or_eq_true_iff.1 h3 with hemp | hall
      · rw [List.isEmpty_iff] at hemp
        rw [hemp] at hAdeps
        exact absurd hAdeps (List.not_mem_nil A)
      · have := List.all_eq_true.1 hall A hAdeps
        exact hAnc (by simpa [beq_status_eq_decide] using this)
    · rfl
  · intro t A B now hfind hArun hB hBne hBpend hBdeps
    have hs1 : complete_deployment t A.id now =
        (readyDependents (releaseAndComplete t A.id A) A.id).foldl
          (fun st e => schedule_deployment st e now) (releaseAndComplete t A.id A) := by
      rw [complete_deployment_of_some now hfind,
        if_pos (by simp [beq_status_eq_decide, hArun])]
    refine ⟨?_, hs1⟩
    have hBne' : (B.id == A.id) = false := by
      cases h : (B.id == A.id)
      · rfl
      · exact absurd (by simpa using h) hBne
    have hgB : (fun e => if e.id == A.id then
        { e with status := DeploymentStatus.completed } else e) B = B := by
      simp only [hBne', Bool.false_eq_true, if_false]
    have hBmem1 : B ∈ (releaseAndComplete t A.id A).deployments := by
      rw [releaseAndComplete]
      exact hgB ▸ List.mem_map_of_mem _ hB
    refine List.mem_filter.2 ⟨hBmem1, ?_⟩
    have hdeps : (dependenciesOf (releaseAndComplete t A.id A) B).all
        (fun x => x.status == DeploymentStatus.completed) = true := by
      rw [List.all_eq_true]
      intro e he
      have he' := List.mem_filter.1 he
      have heid : e.id = A.id := by
        have := he'.2
        rw [hBdeps] at this
        simpa using this
      obtain ⟨e0, he0, hfe⟩ := List.mem_map.1 he'.1
      by_cases h0 : (e0.id == A.id) = true
      · rw [if_pos h0] at hfe
        rw [← hfe]
        simp [beq_status_eq_decide]
      · rw [if_neg h0] at hfe
        subst hfe
        exact absurd heid (by simpa using h0)
    have h1 : B.dependency_ids.contains A.id = true := by simp [hBdeps]
    have h2 : (B.status == DeploymentStatus.pending) = true := by
      simp [beq_status_eq_decide, hBpend]
    simp only [h1, h2, hdeps]
    rfl

/-- Witness for C5: creating `B` (payload `wCreateB`, depending on the
PENDING `A`) persists it PENDING without touching the ledger; and once `A`
is RUNNING (`wStateB`), completing `A` puts `B` in the newly-ready set that
is re-submitted to the scheduler. -/
theorem c5_witness :
    create_deployment wStateA wCreateB 12 0 = Except.ok
      { wStateA with deployments := wStateA.deployments ++
          [{ id := 12, cluster_id := 0, cpu_required := 1, memory_required := 1,
             gpu_required := 0, priority := 1, status := DeploymentStatus.pending,
             scheduled_at := none, started_at := none, dependency_ids := [11] }] } ∧
    wPendingB ∈ readyDependents (releaseAndComplete wStateB 11 wRunningA) 11 :=
  ⟨c5_dependency_gating_and_reevaluation.1 wStateA wCreateB 12 0 wPendingA
      (by simp [wStateA]) (by simp [wPendingA, wStateA, scenarioCluster])
      (by simp [wCreateB, wPendingA]) (by simp [wPendingA])
      (by simp [wCreateB, wStateA, scenarioCluster])
      (by simp [wStateA, wCreateB, wPendingA, scenarioCluster, List.filter_cons]),
   ((c5_dependency_gating_and_reevaluation.2 wStateB wRunningA wPendingB 5
      (by simp [wStateB, wRunningA, wPendingA, List.find?])
      (by simp [wRunningA, wPendingA])
      (by simp [wStateB]) (by simp [wPendingB, wRunningA, wPendingA])
      (by simp [wPendingB]) (by simp [wPendingB, wRunningA, wPendingA])).1 :
    wPendingB ∈ readyDependents (releaseAndComplete wStateB wRunningA.id wRunningA)
      wRunningA.id)⟩

/-- Row rewrites that keep id and dependency set do not change the graph. -/
theorem depEdge_map_iff (f : Deployment → Deployment)
    (hfid : ∀ e, (f e).id = e.id)
    (hfdep : ∀ e, (f e).dependency_ids = e.dependency_ids)
    (ds : List Deployment) (a b : Nat) :
    DepEdge (ds.map f) a b ↔ DepEdge ds a b := by
  constructor
  · rintro ⟨d, hd, hda, hdb⟩
    obtain ⟨e, he, rfl⟩ := List.mem_map.1 hd
    exact ⟨e, he, by rw [← hfid e]; exact hda, by rw [← hfdep e]; exact hdb⟩
  · rintro ⟨d, hd, hda, hdb⟩
    exact ⟨f d, List.mem_map_of_mem f hd, by rw [hfid]; exact hda,
      by rw [hfdep]; exact hdb⟩

/-- Edges after appending one row: the old edges plus the new row's edges. -/
theorem depEdge_append_iff (ds : List Deployment) (r : Deployment) (a b : Nat) :
    DepEdge (ds ++ [r]) a b ↔ DepEdge ds a b ∨ (a = r.id ∧ b ∈ r.dependency_ids) := by
  constructor
  · rintro ⟨d, hd, hda, hdb⟩
    rcases List.mem_append.1 hd with h | h
    · exact Or.inl ⟨d, h, hda, hdb⟩
    · rw [List.mem_singleton] at h
      subst h
      exact Or.inr ⟨hda.symm, hdb⟩
  · rintro (⟨d, hd, hda, hdb⟩ | ⟨rfl, hb⟩)
    · exact ⟨d, List.mem_append_left _ hd, hda, hdb⟩
    · exact ⟨r, List.mem_append_right _ (List.mem_singleton_self r), rfl, hb⟩

/-- A node without incoming edges is never the target of a nonempty path. -/
theorem transGen_target_ne {α} {E : α → α → Prop} {x : α}
    (hno : ∀ a, ¬ E a x) : ∀ {a b}, Relation.TransGen E a b → b ≠ x := by
  intro a b h
  cases h with
  | single h1 => intro hx; subst hx; exact hno _ h1
  | tail _ h2 => intro hx; subst hx; exact hno _ h2

/-- A path in an extended relation that never targets the special node `x`
either lies in the base relation or starts at `x`. -/
theorem transGen_avoid {α} {E E' : α → α → Prop} {x : α}
    (hsub : ∀ a b, E' a b → E a b ∨ a = x)
    (hno : ∀ a, ¬ E' a x) :
    ∀ a b, Relation.TransGen E' a b → b ≠ x → Relation.TransGen E a b ∨ a = x := by
  intro a b h
  induction h with
  | single h1 =>
    intro _
    rcases hsub _ _ h1 with h2 | h2
    · exact Or.inl (Relation.TransGen.single h2)
    · exact Or.inr h2
  | tail hab hbc ih =>
    intro _
    have hbx := transGen_target_ne hno hab
    rcases ih hbx with hE | hax
    · rcases hsub _ _ hbc with h2 | h2
      · exact Or.inl (hE.tail h2)
      · exact absurd h2 hbx
    · exact Or.inr hax

/-- Appending a row that nothing (including itself) depends on preserves
acyclicity. -/
theorem acyclic_append (ds : List Deployment) (r : Deployment)
    (hnoIn : ∀ a, ¬ DepEdge (ds ++ [r]) a r.id)
    (hAc : DepAcyclic ds) : DepAcyclic (ds ++ [r]) := by
  intro a hcyc
  have hax : a ≠ r.id := transGen_target_ne hnoIn hcyc
  have hsub : ∀ x y, DepEdge (ds ++ [r]) x y → DepEdge ds x y ∨ x = r.id := by
    intro x y h
    rcases (depEdge_append_iff ds r x y).1 h with h | h
    · exact Or.inl h
    · exact Or.inr h.1
  rcases transGen_avoid hsub hnoIn a a hcyc hax with h | h
  · exact hAc a h
  · exact hax h

/-- The preemption helper never changes the dependency graph. -/
theorem depEdge_preempt_snd (s : State) (rc rm : ℚ) (rg : Int) (p : Nat) (a b : Nat) :
    DepEdge (preempt_lower_priority_deployments s rc rm rg p).2 a b ↔
      DepEdge s.deployments a b := by
  rw [preempt_lower_priority_deployments]
  by_cases hcov : cpuOf (chosenVictims s rc rm rg p) ≥ rc ∧
      memOf (chosenVictims s rc rm rg p) ≥ rm ∧ gpuOf (chosenVictims s rc rm rg p) ≥ rg
  · rw [if_pos hcov]
    simp only [markPreempted]
    exact depEdge_map_iff _ (fun e => by split <;> rfl)
      (fun e => by split <;> rfl) s.deployments a b
  · rw [if_neg hcov]

/-- The scheduler never changes the dependency graph: every branch either
returns the rows unchanged or rewrites statuses/timestamps in place. -/
theorem schedule_deployment_graph (s : State) (d : Deployment) (now : Nat) (a b : Nat) :
    DepEdge (schedule_deployment s d now).deployments a b ↔ DepEdge s.deployments a b := by
  simp only [schedule_deployment]
  by_cases h1 : (!(dependenciesOf s d).isEmpty &&
      !(dependenciesOf s d).all fun e => e.status == DeploymentStatus.completed) = true
  · rw [if_pos h1]
  · rw [if_neg h1]
    by_cases h2 : s.cluster.cpu_limit - s.cluster.cpu_used ≥ d.cpu_required ∧
        s.cluster.ram_limit - s.cluster.ram_used ≥ d.memory_required ∧
        s.cluster.gpu_limit - s.cluster.gpu_used ≥ d.gpu_required
    · rw [if_pos h2]
      simp only [admitDeployment]
      exact depEdge_map_iff _ (fun e => by split <;> rfl)
        (fun e => by split <;> rfl) s.deployments a b
    · rw [if_neg h2]
      by_cases h3 : d.priority ≥ DeploymentPriority.HIGH
      · rw [if_pos h3]
        by_cases h4 : (preempt_lower_priority_deployments s d.cpu_required
            d.memory_required d.gpu_required d.priority).1 = true
        · rw [if_pos h4]
          simp only [admitDeployment]
          exact (depEdge_map_iff _ (fun e => by split <;> rfl)
            (fun e => by split <;> rfl) _ a b).trans
            (depEdge_preempt_snd s d.cpu_required d.memory_required d.gpu_required
              d.priority a b)
        · rw [if_neg h4]
          simp only [setStatus]
          exact (depEdge_map_iff _ (fun e => by split <;> rfl)
            (fun e => by split <;> rfl) _ a b).trans
            (depEdge_preempt_snd s d.cpu_required d.memory_required d.gpu_required
              d.priority a b)
      · rw [if_neg h3]
        simp only [setStatus]
        exact depEdge_map_iff _ (fun e => by split <;> rfl)
          (fun e => by split <;> rfl) s.deployments a b

/-- If the dependency lookup finds as many rows as there are requested ids
(over duplicate-free row ids), the fresh id cannot be among the requested
ids: every requested id is matched by a stored row, and no stored row
carries the fresh id. -/
theorem newId_notin_of_filter_len_eq (s : State) (inp : DeploymentCreate) (newId : Nat)
    (hNodupRows : (s.deployments.map Deployment.id).Nodup)
    (hfresh : ∀ e ∈ s.deployments, e.id ≠ newId)
    (hlen : (s.deployments.filter (fun e =>
        inp.dependency_ids.contains e.id && e.cluster_id == s.cluster.id)).length =
      inp.dependency_ids.length) :
    newId ∉ inp.dependency_ids := by
  intro hin
  have hsubl : (s.deployments.filter (fun e =>
      inp.dependency_ids.contains e.id && e.cluster_id == s.cluster.id)).Sublist
      s.deployments := List.filter_sublist _
  have hnodupF : ((s.deployments.filter (fun e =>
      inp.dependency_ids.contains e.id && e.cluster_id == s.cluster.id)).map
      Deployment.id).Nodup :=
    List.Nodup.sublist (List.Sublist.map Deployment.id hsubl) hNodupRows
  have hsubset : (s.deployments.filter (fun e =>
      inp.dependency_ids.contains e.id && e.cluster_id == s.cluster.id)).map
      Deployment.id ⊆ inp.dependency_ids := by
    intro x hx
    obtain ⟨e, heF, rfl⟩ := List.mem_map.1 hx
    have hpred := (List.mem_filter.1 heF).2
    simp only [Bool.and_eq_true] at hpred
    simpa using hpred.1
  have hperm := (hnodupF.subperm hsubset).perm_of_length_le (by
    simp only [List.length_map, hlen]
    exact Nat.le_refl _)
  have hmem : newId ∈ (s.deployments.filter (fun e =>
      inp.dependency_ids.contains e.id && e.cluster_id == s.cluster.id)).map
      Deployment.id := hperm.mem_iff.2 hin
  obtain ⟨e, heF, heid⟩ := List.mem_map.1 hmem
  exact hfresh e (List.mem_filter.1 heF).1 heid

/-- C6 (amended): the API offers no way to create a dependency cycle.  Edges
are added only at creation time and must resolve to already-stored rows of
the cluster, so (a) an attempt that would create a cycle — one whose
dependency set names the id being created, the only cycle-forming shape —
is rejected with the dependency-not-found error (no `CycleDetected` error
kind exists in the code), and (b) whenever creation succeeds, acyclicity of
the dependency graph is preserved. -/
theorem c6_amended_creation_preserves_acyclicity
    (s : State) (inp : DeploymentCreate) (newId now : Nat)
    (hNodupRows : (s.deployments.map Deployment.id).Nodup)
    (hfresh : ∀ e ∈ s.deployments, e.id ≠ newId)
    (hfreshRef : ∀ e ∈ s.deployments, newId ∉ e.dependency_ids)
    (hcl : inp.cluster_id = s.cluster.id) :
    (newId ∈ inp.dependency_ids →
      create_deployment s inp newId now = Except.error CreateError.dependencyNotFound) ∧
    (∀ s', create_deployment s inp newId now = Except.ok s' →
      DepAcyclic s.deployments → DepAcyclic s'.deployments) := by
  constructor
  · intro hin
    have hne : (s.deployments.filter (fun e =>
        inp.dependency_ids.contains e.id && e.cluster_id == s.cluster.id)).length ≠
        inp.dependency_ids.length := fun hlen =>
      newId_notin_of_filter_len_eq s inp newId hNodupRows hfresh hlen hin
    simp only [create_deployment]
    rw [if_neg (by simp [hcl])]
    rw [if_pos ⟨List.ne_nil_of_mem hin, hne⟩]
  · intro s' hok hAc
    simp only [create_deployment] at hok
    split at hok
    · exact absurd hok (by simp)
    · split at hok
      · exact absurd hok (by simp)
      · next hlenneg =>
        have hnin : newId ∉ inp.dependency_ids := by
          intro hin
          by_cases hids : inp.dependency_ids = []
          · rw [hids] at hin
            exact absurd hin (List.not_mem_nil newId)
          · have hlen : (s.deployments.filter (fun e =>
                inp.dependency_ids.contains e.id && e.cluster_id == s.cluster.id)).length =
                inp.dependency_ids.length := by
              by_contra hne
              exact hlenneg ⟨hids, hne⟩
            exact newId_notin_of_filter_len_eq s inp newId hNodupRows hfresh hlen hin
        have hAc1 : DepAcyclic (s.deployments ++
            [{ id := newId, cluster_id := inp.cluster_id,
               cpu_required := inp.cpu_required, memory_required := inp.memory_required,
               gpu_required := inp.gpu_required, priority := inp.priority,
               status := initialStatus, scheduled_at := none, started_at := none,
               dependency_ids := inp.dependency_ids }]) := by
          apply acyclic_append
          · intro a hedge
            rcases (depEdge_append_iff _ _ _ _).1 hedge with ⟨e, he, _, hdep⟩ | ⟨_, hdep⟩
            · exact hfreshRef e he hdep
            · exact hnin hdep
          · exact hAc
        split at hok
        · have hs' := Except.ok.inj hok
          rw [← hs']
          intro a hcyc
          exact hAc1 a (hcyc.mono fun x y h => (schedule_deployment_graph _ _ now x y).1 h)
        · have hs' := Except.ok.inj hok
          rw [← hs']
          intro a hcyc
          exact hAc1 a hcyc

/-- C6 counterexample: the only expressible attempt at a dependency cycle is
a payload naming the id the database is about to assign (here `12`), since
edges can only point at already-persisted deployments.  Had the row been
persisted, the graph would contain the cycle `12 → 12` (third conjunct), so
this is an attempt to create a cycle; the code rejects it, but with the 400
dependency-not-found error, not with the `CycleDetected` error the claim
requires — no such error kind exists in the code. -/
theorem c6_counterexample_rejected_as_dependency_not_found :
    create_deployment wStateA cycAttempt 12 0 =
      Except.error CreateError.dependencyNotFound ∧
    (Except.error CreateError.dependencyNotFound ≠
      (Except.error CreateError.cycleDetected : Except CreateError State)) ∧
    Relation.TransGen (DepEdge (wStateA.deployments ++
      [{ id := 12, cluster_id := 0, cpu_required := 1, memory_required := 1,
         gpu_required := 0, priority := 1, status := DeploymentStatus.pending,
         scheduled_at := none, started_at := none, dependency_ids := [12] }])) 12 12 := by
  refine ⟨?_, by simp, Relation.TransGen.single ?_⟩
  · simp [create_deployment, wStateA, cycAttempt, wPendingA, scenarioCluster,
      List.filter_cons]
  · exact ⟨{ id := 12, cluster_id := 0, cpu_required := 1, memory_required := 1,
             gpu_required := 0, priority := 1, status := DeploymentStatus.pending,
             scheduled_at := none, started_at := none, dependency_ids := [12] },
      List.mem_append_right _ (by simp), rfl, by simp⟩

/-- Witness for C6 (amended) on `wStateA` (one stored row, id `11`) with the
self-referencing payload `cycAttempt` and fresh id `12`: the cycle attempt
is rejected as dependency-not-found. -/
theorem c6_amended_witness :
    create_deployment wStateA cycAttempt 12 0 =
      Except.error CreateError.dependencyNotFound :=
  (c6_amended_creation_preserves_acyclicity wStateA cycAttempt 12 0
    (by simp [wStateA, wPendingA])
    (by simp [wStateA, wPendingA])
    (by simp [wStateA, wPendingA])
    (by simp [wStateA, cycAttempt, scenarioCluster])).1 (by simp [cycAttempt])

/-- Evaluation of the wide-cluster trace up to the first started LOW. -/
theorem w2_eq :
    w2 =
      { cluster := { wideCluster with cpu_used := 10, ram_used := 16, gpu_used := 0 },
        deployments := [wLow1Run] } := by
  norm_num [w2, w1, wideInit, wideCluster, lowReq10, create_deployment,
    schedule_deployment, admitDeployment, preempt_lower_priority_deployments,
    chosenVictims, eligibleVictims, runningBelow, sortByPriority, selectVictims,
    markPreempted, setStatus, dependenciesOf, cpuOf, memOf, gpuOf, start_deployment,
    initialStatus, DeploymentPriority.HIGH, DeploymentPriority.LOW, List.insertionSort,
    List.orderedInsert, priorityLE, Except.toOption, beq_status_eq_decide,
    List.filter_cons, wLow1Run]

/-- Evaluation up to the second started LOW: `used = (20, 32, 0)`. -/
theorem w4_eq :
    w4 =
      { cluster := { wideCluster with cpu_used := 20, ram_used := 32, gpu_used := 0 },
        deployments := [wLow1Run, wLow2Run] } := by
  rw [w4, w3, w2_eq]
  norm_num [wideCluster, lowReq10, create_deployment,
    schedule_deployment, admitDeployment, preempt_lower_priority_deployments,
    chosenVictims, eligibleVictims, runningBelow, sortByPriority, selectVictims,
    markPreempted, setStatus, dependenciesOf, cpuOf, memOf, gpuOf, start_deployment,
    initialStatus, DeploymentPriority.HIGH, DeploymentPriority.LOW, List.insertionSort,
    List.orderedInsert, priorityLE, Except.toOption, beq_status_eq_decide,
    List.filter_cons, wLow1Run, wLow2Run]

/-- Evaluation through the HIGH submit: LOW 1 is preempted without credit,
leaving `used = (30, 48, 0)` on the `(20, 64, 2)` cluster. -/
theorem w5_eq :
    w5 =
      { cluster := { wideCluster with cpu_used := 30, ram_used := 48, gpu_used := 0 },
        deployments := [wLow1Pre, wLow2Run, wHigh3Sched] } := by
  rw [w5, w4_eq]
  norm_num [wideCluster, highReq10, create_deployment,
    schedule_deployment, admitDeployment, preempt_lower_priority_deployments,
    chosenVictims, eligibleVictims, runningBelow, sortByPriority, selectVictims,
    markPreempted, setStatus, dependenciesOf, cpuOf, memOf, gpuOf,
    initialStatus, DeploymentPriority.HIGH, List.insertionSort,
    List.orderedInsert, priorityLE, Except.toOption, beq_status_eq_decide,
    List.filter_cons, wLow1Run, wLow2Run, wLow1Pre, wHigh3Sched]

/-- Evaluation through the CRITICAL submit from the over-limit state: LOW 2
is preempted and the CRITICAL deployment is admitted. -/
theorem w6_eq :
    w6 =
      { cluster := { wideCluster with cpu_used := 40, ram_used := 64, gpu_used := 0 },
        deployments := [wLow1Pre, wLow2Pre, wHigh3Sched, wCrit4Sched] } := by
  rw [w6, w5_eq]
  norm_num [wideCluster, critReq10, create_deployment,
    schedule_deployment, admitDeployment, preempt_lower_priority_deployments,
    chosenVictims, eligibleVictims, runningBelow, sortByPriority, selectVictims,
    markPreempted, setStatus, dependenciesOf, cpuOf, memOf, gpuOf,
    initialStatus, DeploymentPriority.HIGH, DeploymentPriority.CRITICAL,
    List.insertionSort, List.orderedInsert, priorityLE, Except.toOption,
    beq_status_eq_decide, List.filter_cons, wLow1Run, wLow2Run, wLow1Pre, wLow2Pre,
    wHigh3Sched, wCrit4Sched]

/-- C7: the claim states that preemption never admits a candidate whose
request still exceeds freed-plus-available capacity in some dimension.  The
program violates this on a reachable trace: on the `(20, 64, 2)` cluster,
two LOW `(10, 16, 0)` deployments run (`used = (20, 32, 0)`, within
limits), a HIGH `(10, 16, 0)` submit preempts the first LOW without
crediting its reservation back (`used = (30, 48, 0)`, over the CPU limit),
and then a CRITICAL `(10, 16, 0)` submit is admitted by preempting the
second LOW although freed-plus-available CPU is `10 + (20 - 30) = 0 < 10`.
The no-credit-back slip (C1/C2) thus also breaks the spec's preemption
correctness property.  (The other half of the claim — never evicting a
deployment of priority ≥ the candidate's — does hold; see
`preempt_admission_bound_within_limits`.) -/
theorem c7_preemption_overadmits_from_reachable_state :
    UsageWithinLimits w4 ∧
    w5.cluster.cpu_used = 30 ∧
    w5.cluster.cpu_limit = 20 ∧
    (preempt_lower_priority_deployments w5 10 16 0 3).1 = true ∧
    cpuOf (chosenVictims w5 10 16 0 3) +
      (w5.cluster.cpu_limit - w5.cluster.cpu_used) = 0 ∧
    ¬ ((10:ℚ) ≤ cpuOf (chosenVictims w5 10 16 0 3) +
      (w5.cluster.cpu_limit - w5.cluster.cpu_used)) ∧
    w6.deployments.find? (fun e => e.id == 4) = some wCrit4Sched := by
  refine ⟨?_, ?_, ?_, ?_, ?_, ?_, ?_⟩
  · rw [w4_eq]
    refine ⟨?_, ?_, ?_⟩ <;> norm_num [UsageWithinLimits, wideCluster]
  · rw [w5_eq]
  · rw [w5_eq]
    norm_num [wideCluster]
  · rw [w5_eq]
    simp [preempt_lower_priority_deployments, chosenVictims, eligibleVictims,
      runningBelow, sortByPriority, selectVictims, cpuOf, memOf, gpuOf, wideCluster,
      wLow1Pre, wLow2Run, wLow1Run, wHigh3Sched, List.insertionSort, List.orderedInsert,
      priorityLE, beq_status_eq_decide, List.filter_cons]
  · rw [w5_eq]
    simp [chosenVictims, eligibleVictims, runningBelow, sortByPriority, selectVictims,
      cpuOf, memOf, gpuOf, wideCluster, wLow1Pre, wLow2Run, wLow1Run, wHigh3Sched,
      List.insertionSort, List.orderedInsert, priorityLE, beq_status_eq_decide,
      List.filter_cons]
    norm_num
  · rw [w5_eq]
    simp [chosenVictims, eligibleVictims, runningBelow, sortByPriority, selectVictims,
      cpuOf, memOf, gpuOf, wideCluster, wLow1Pre, wLow2Run, wLow1Run, wHigh3Sched,
      List.insertionSort, List.orderedInsert, priorityLE, beq_status_eq_decide,
      List.filter_cons]
    norm_num
  · rw [w6_eq]
    simp [wLow1Pre, wLow2Pre, wLow1Run, wLow2Run, wHigh3Sched, wCrit4Sched]
